import Mathlib

/-!
Shallow embedding of the SmartPathAI adaptive-quiz application
(`src/App.tsx`, `src/services/geminiService.ts`, `src/unnamed/part_000..002`).

Conventions of the embedding:
* React `useState` values and the `prefetchingRef` mutable ref are collected
  into one explicit `AppState` record; every event handler becomes a pure
  function `AppState → ... → AppState` (or `AppState × List FetchRequest`
  when the handler may issue a batch request towards the content source).
  The second component records, in order, the `generateAdaptiveQuestions`
  batch requests the handler actually issues.
* JavaScript number arithmetic in `calculateNewDifficulty` is modelled
  exactly over `ℚ`; for integer inputs the intermediate values are never
  closer than `1/22` to a rounding boundary, so IEEE doubles and exact
  rationals round identically.  `Math.round` (round half towards +infinity)
  is Mathlib's `round` (`round x = ⌊x + 1/2⌋`).
* The asynchronous outcome of a raw Gemini model call is passed in as an
  explicit `Except Unit (List Question)` argument (`Except.error ()` means
  the model call, the empty-response check, or the JSON parsing threw
  inside the `try` block of the service).
* Purely presentational state (text-selection popup, explanation modal,
  streak persistence in `localStorage`) is omitted; no claim touches it.
-/

namespace SmartPath

/-- `Question` from `types.ts` (`src/unnamed/part_002`). -/
structure Question where
  text : String
  options : List String
  correctIndex : Nat
  explanation : String
  topicSubCategory : String
deriving DecidableEq, Repr

/-- `QuizHistoryItem` from `types.ts`. -/
structure QuizHistoryItem where
  question : String
  userAnswerIndex : Nat
  correctIndex : Nat
  isCorrect : Bool
  timestamp : Nat
  difficultyBefore : Int
  difficultyAfter : Int
deriving DecidableEq, Repr

/-- The `status` field of a `StudyPlanDay` (`'locked' | 'current' | 'completed'`). -/
inductive PlanStatus where
  | locked
  | currentDay
  | completed
deriving DecidableEq, Repr

/-- `StudyPlanDay` from `types.ts`. -/
structure StudyPlanDay where
  day : Int
  topic : String
  activities : List String
  focus : String
  status : PlanStatus
deriving DecidableEq, Repr

/-- `AppStatus` enum from `types.ts`. -/
inductive AppStatus where
  | IDLE
  | MATERIAL_VIEW
  | QUIZ
  | SUMMARY
  | ERROR
deriving DecidableEq, Repr

/-- The `currentDayFocus` record `{subTopic, focus}` of `App.tsx`. -/
structure DayFocus where
  subTopic : String
  focus : String
deriving DecidableEq, Repr

/-- The mutable session state of `App.tsx`: all `useState` hooks relevant to
the adaptive supply controller plus the `prefetchingRef` mutable ref
(the single-flight FetchGuard). -/
structure AppState where
  status : AppStatus
  topic : String
  difficulty : Int
  currentQuestion : Option Question
  history : List QuizHistoryItem
  questionQueue : List Question
  isLoadingInitial : Bool
  isPrefetching : Bool
  selectedOption : Option Nat
  feedbackShown : Bool
  showPlanModal : Bool
  studyPlan : List StudyPlanDay
  activePlanDay : Option Int
  studyMaterial : Option String
  activeMaterialContext : Option String
  isLoadingMaterial : Bool
  currentDayFocus : Option DayFocus
  prefetchingRef : Bool
deriving DecidableEq, Repr

/-- A batch request issued to the content source
(one call of `generateAdaptiveQuestions` with these arguments). -/
structure FetchRequest where
  topic : String
  level : Int
  count : Nat
  blocking : Bool
deriving DecidableEq, Repr

/-- `calculateNewDifficulty` from `App.tsx` lines 86-95:
`boost = Math.max(2, 10 * (1 - current / 110))`,
`Math.min(100, Math.round(current + boost))` on a correct answer and
`penalty = Math.max(3, 8 * (current / 100))`,
`Math.max(0, Math.round(current - penalty))` on an incorrect one. -/
def calculateNewDifficulty (current : Int) (isCorrect : Bool) : Int :=
  if isCorrect then
    let boost : ℚ := max 2 (10 * (1 - (current : ℚ) / 110))
    min 100 (round ((current : ℚ) + boost))
  else
    let penalty : ℚ := max 3 (8 * ((current : ℚ) / 100))
    max 0 (round ((current : ℚ) - penalty))

/-- The fixed fallback question returned by the `catch` block of
`generateAdaptiveQuestions` (`geminiService.ts` lines 133-139). -/
def fallbackQuestion : Question :=
  { text := "联系 AI 导师时遇到错误。请重试。"
    options := ["重试", "检查网络", "重新加载", "等待"]
    correctIndex := 0
    explanation := "网络或 API 出现错误。"
    topicSubCategory := "错误处理" }

/-- `generateAdaptiveQuestions` from `geminiService.ts`: if the API key is
missing the function throws *before* the `try` block (lines 21-23), so the
error propagates to the caller; any failure inside the `try` block (model
call, empty response text, JSON parsing), modelled by `apiResult =
Except.error ()`, is caught and replaced by the single fallback question. -/
def generateAdaptiveQuestions (apiKeyPresent : Bool)
    (apiResult : Except Unit (List Question)) : Except Unit (List Question) :=
  if apiKeyPresent = false then Except.error ()
  else
    match apiResult with
    | Except.ok qs => Except.ok qs
    | Except.error _ => Except.ok [fallbackQuestion]

/-- The synchronous prefix of `fetchQuestionsToQueue` once past the guard
check (`App.tsx` lines 106-109): set `prefetchingRef.current = true`, then
`setIsLoadingInitial(true)` on a blocking call or `setIsPrefetching(true)`
on a background call. -/
def fetchStartState (s : AppState) (isInitialLoad : Bool) : AppState :=
  { s with prefetchingRef := true
           isLoadingInitial := if isInitialLoad then true else s.isLoadingInitial
           isPrefetching := if isInitialLoad then s.isPrefetching else true }

/-- The `finally` block of `fetchQuestionsToQueue` (`App.tsx` lines 123-127):
clear the loading flag matching the call kind and release the guard. -/
def fetchFinallyState (s : AppState) (isInitialLoad : Bool) : AppState :=
  { s with isLoadingInitial := if isInitialLoad then false else s.isLoadingInitial
           isPrefetching := if isInitialLoad then s.isPrefetching else false
           prefetchingRef := false }

/-- `fetchQuestionsToQueue` from `App.tsx` lines 97-128, run to completion.
If `prefetchingRef` is already set the call returns immediately (line 104)
with no state change and no request.  Otherwise the guard is set, one
request is issued, and on a successful batch the result is appended to the
queue; a blocking call with a non-empty batch then takes the first element
as the current question and stores only the rest (lines 115-120).  On a
thrown error the queue is untouched.  The `finally` block always runs. -/
def fetchQuestionsToQueue (s : AppState) (currentTopic : String)
    (currentDiff : Int) (count : Nat) (isInitialLoad : Bool)
    (apiKeyPresent : Bool) (apiResult : Except Unit (List Question)) :
    AppState × List FetchRequest :=
  if s.prefetchingRef then (s, [])
  else
    let s1 := fetchStartState s isInitialLoad
    let req : FetchRequest :=
      { topic := currentTopic, level := currentDiff, count := count,
        blocking := isInitialLoad }
    match generateAdaptiveQuestions apiKeyPresent apiResult with
    | Except.ok newQuestions =>
        let s2 := { s1 with questionQueue := s1.questionQueue ++ newQuestions }
        let s3 :=
          if isInitialLoad = true ∧ 0 < newQuestions.length then
            { s2 with currentQuestion := newQuestions.head?
                      questionQueue := newQuestions.tail }
          else s2
        (fetchFinallyState s3 isInitialLoad, [req])
    | Except.error _ => (fetchFinallyState s1 isInitialLoad, [req])

/-- The recovery reconciler `useEffect` of `App.tsx` lines 130-137: whenever
`isLoadingInitial` (the blocking wait) is showing and the queue is
non-empty, pop the front of the queue as the current question and clear the
blocking flag.  It issues no fetch request. -/
def recoveryEffect (s : AppState) : AppState × List FetchRequest :=
  if s.isLoadingInitial = true ∧ 0 < s.questionQueue.length then
    ({ s with currentQuestion := s.questionQueue.head?
              questionQueue := s.questionQueue.tail
              isLoadingInitial := false }, [])
  else (s, [])

/-- `queryTopic` computed inside `handleAnswer` / `handleNext`:
`currentDayFocus ? `${topic}: ${currentDayFocus.subTopic}` : topic`. -/
def queryTopic (s : AppState) : String :=
  match s.currentDayFocus with
  | some f => s.topic ++ ": " ++ f.subTopic
  | none => s.topic

/-- `handleAnswer` from `App.tsx` lines 239-268.  A second submission while
feedback is shown is rejected; with no current question only the selection
flags change.  Otherwise correctness is computed, the history item is
appended, the difficulty is updated, and if `questionQueue.length <= 4 &&
!prefetchingRef.current` a non-blocking batch of 5 is requested at the new
difficulty (with the day-focus topic and any active material context). -/
def handleAnswer (s : AppState) (index : Nat) (now : Nat)
    (apiKeyPresent : Bool) (apiResult : Except Unit (List Question)) :
    AppState × List FetchRequest :=
  if s.feedbackShown then (s, [])
  else
    let s1 := { s with selectedOption := some index, feedbackShown := true }
    match s.currentQuestion with
    | none => (s1, [])
    | some q =>
        let isCorrect := index == q.correctIndex
        let newDifficulty := calculateNewDifficulty s.difficulty isCorrect
        let item : QuizHistoryItem :=
          { question := q.text, userAnswerIndex := index,
            correctIndex := q.correctIndex, isCorrect := isCorrect,
            timestamp := now, difficultyBefore := s.difficulty,
            difficultyAfter := newDifficulty }
        let s2 := { s1 with history := s1.history ++ [item],
                            difficulty := newDifficulty }
        if s2.questionQueue.length ≤ 4 ∧ s2.prefetchingRef = false then
          fetchQuestionsToQueue s2 (queryTopic s2) newDifficulty 5 false
            apiKeyPresent apiResult
        else (s2, [])

/-- `handleNext` from `App.tsx` lines 270-283: clear the per-question flags,
then either pop the front of the queue as the next question, or enter the
blocking wait and issue a blocking batch request for 5. -/
def handleNext (s : AppState) (apiKeyPresent : Bool)
    (apiResult : Except Unit (List Question)) : AppState × List FetchRequest :=
  let s1 := { s with feedbackShown := false, selectedOption := none }
  match s1.questionQueue with
  | q :: rest =>
      ({ s1 with currentQuestion := some q, questionQueue := rest }, [])
  | [] =>
      let s2 := { s1 with isLoadingInitial := true }
      fetchQuestionsToQueue s2 (queryTopic s2) s2.difficulty 5 true
        apiKeyPresent apiResult

/-- `resetApp` from `App.tsx` lines 285-299 (selection popup and explanation
modal state omitted). -/
def resetApp (s : AppState) : AppState :=
  { s with status := AppStatus.IDLE, topic := "", history := [],
           difficulty := 50, currentQuestion := none, questionQueue := [],
           studyMaterial := none, activeMaterialContext := none,
           currentDayFocus := none, studyPlan := [], activePlanDay := none }

/-- `handleStartPlanDay` from `App.tsx` lines 184-211.  A locked day is
rejected before any state change.  Otherwise the day becomes active, the
app enters material view, and the material outcome (`Except.error ()` for a
thrown generation failure) fills `studyMaterial` or the fixed Chinese
failure placeholder. -/
def handleStartPlanDay (s : AppState) (day : StudyPlanDay)
    (material : Except Unit String) : AppState :=
  if day.status = PlanStatus.locked then s
  else
    let s1 := { s with activePlanDay := some day.day, showPlanModal := false,
                       isLoadingMaterial := true,
                       status := AppStatus.MATERIAL_VIEW,
                       studyMaterial := none, activeMaterialContext := none,
                       currentDayFocus :=
                         some { subTopic := day.topic, focus := day.focus } }
    match material with
    | Except.ok m =>
        { s1 with studyMaterial := some m, activeMaterialContext := some m,
                  isLoadingMaterial := false }
    | Except.error _ =>
        { s1 with studyMaterial := some "加载学习材料失败。请直接尝试答题。",
                  isLoadingMaterial := false }

/-- The plan update performed by `handleCompletePlanDay` (`App.tsx` lines
220-228): the day whose number equals the active day becomes `completed`,
the day numbered one higher becomes `current`, all others are returned
unchanged. -/
def completePlanUpdate (plan : List StudyPlanDay) (activeDay : Int) :
    List StudyPlanDay :=
  plan.map fun day =>
    if day.day = activeDay then { day with status := PlanStatus.completed }
    else if day.day = activeDay + 1 then { day with status := PlanStatus.currentDay }
    else day

/-- `handleCompletePlanDay` from `App.tsx` lines 213-237: with no active day
it falls back to `resetApp`; otherwise it applies `completePlanUpdate`,
clears the quiz session and re-opens the plan modal. -/
def handleCompletePlanDay (s : AppState) : AppState :=
  match s.activePlanDay with
  | none => resetApp s
  | some k =>
      { s with studyPlan := completePlanUpdate s.studyPlan k,
               activePlanDay := none, status := AppStatus.IDLE,
               history := [], currentQuestion := none,
               activeMaterialContext := none, showPlanModal := true }

/-- Visibility condition of the dedicated "完成今日打卡" completion button in
the quiz feedback panel (`App.tsx` line 726): it is rendered only inside the
feedback section and only when a plan day is active and at least 3 questions
have been answered. -/
def completeDayButtonVisible (s : AppState) : Prop :=
  s.feedbackShown = true ∧ s.activePlanDay.isSome = true ∧ 3 ≤ s.history.length

/-- The quit button of the quiz screen (`App.tsx` line 626): it is always
rendered during a quiz and invokes `handleCompletePlanDay` whenever a plan
day is active (label "放弃并返回计划"), else `resetApp`. -/
def quitQuizAction (s : AppState) : AppState :=
  if s.activePlanDay.isSome then handleCompletePlanDay s else resetApp s

/-- A sample question used for concrete witnesses. -/
def sampleQuestion : Question :=
  { text := "q1", options := ["a", "b", "c", "d"], correctIndex := 0,
    explanation := "e1", topicSubCategory := "t1" }

/-- A second sample question used for concrete witnesses. -/
def sampleQuestion2 : Question :=
  { text := "q2", options := ["a", "b", "c", "d"], correctIndex := 1,
    explanation := "e2", topicSubCategory := "t2" }

/-- A baseline concrete state (the initial hook values of `App.tsx`). -/
def baseState : AppState :=
  { status := AppStatus.IDLE, topic := "math", difficulty := 50,
    currentQuestion := none, history := [], questionQueue := [],
    isLoadingInitial := false, isPrefetching := false,
    selectedOption := none, feedbackShown := false, showPlanModal := false,
    studyPlan := [], activePlanDay := none, studyMaterial := none,
    activeMaterialContext := none, isLoadingMaterial := false,
    currentDayFocus := none, prefetchingRef := false }

/-- The first (current) day of the sample study plan. -/
def planDay1 : StudyPlanDay :=
  { day := 1, topic := "d1", activities := ["a1"], focus := "f1",
    status := PlanStatus.currentDay }

/-- The second (locked) day of the sample study plan. -/
def lockedDay : StudyPlanDay :=
  { day := 2, topic := "d2", activities := ["a2"], focus := "f2",
    status := PlanStatus.locked }

/-- A sample two-day study plan with day 1 current and day 2 locked. -/
def samplePlan : List StudyPlanDay := [planDay1, lockedDay]

/-- A concrete quiz state inside plan day 1 with no answered questions. -/
def planQuizState : AppState :=
  { baseState with status := AppStatus.QUIZ, activePlanDay := some 1,
                   studyPlan := samplePlan }

/-- A sample history item used to build witness states. -/
def sampleHistoryItem : QuizHistoryItem :=
  { question := "q1", userAnswerIndex := 0, correctIndex := 0,
    isCorrect := true, timestamp := 0, difficultyBefore := 50,
    difficultyAfter := 55 }

/-- C1: whenever the blocking wait (`isLoadingInitial`, the Blocked loading
mode) is showing and the question queue is non-empty, the recovery
reconciler immediately pops the front of the queue, surfaces it as the
current question, clears the blocking flag back to idle, and issues no
additional fetch request. -/
theorem recovery_pops_front (s : AppState)
    (hb : s.isLoadingInitial = true) (hq : s.questionQueue ≠ []) :
    (recoveryEffect s).1.currentQuestion = s.questionQueue.head? ∧
    (recoveryEffect s).1.questionQueue = s.questionQueue.tail ∧
    (recoveryEffect s).1.isLoadingInitial = false ∧
    (recoveryEffect s).2 = [] := by
  have hlen : 0 < s.questionQueue.length := List.length_pos.mpr hq
  simp [recoveryEffect, hb, hlen]

/-- A concrete blocked state with a two-element queue, for the C1 witness. -/
def blockedState : AppState :=
  { baseState with isLoadingInitial := true,
                   questionQueue := [sampleQuestion, sampleQuestion2] }

/-- Witness for C1 at a concrete blocked state. -/
theorem recovery_pops_front_witness :
    (recoveryEffect blockedState).1.currentQuestion = blockedState.questionQueue.head? ∧
    (recoveryEffect blockedState).1.questionQueue = blockedState.questionQueue.tail ∧
    (recoveryEffect blockedState).1.isLoadingInitial = false ∧
    (recoveryEffect blockedState).2 = [] :=
  recovery_pops_front blockedState rfl (by decide)

/-- C2: single-flight invariant.  An invocation of `fetchQuestionsToQueue`
made while the FetchGuard (`prefetchingRef`) is already set returns
immediately with the whole state (queue, guard, and both loading flags)
unchanged and issues no request towards the content source; and an
invocation that does proceed sets the guard for the duration of its flight,
so of two overlapping invocations at most one reaches the content source. -/
theorem single_flight_guard (s s' : AppState) (t : String) (d : Int) (c : Nat)
    (init init' key : Bool) (res : Except Unit (List Question))
    (h : s.prefetchingRef = true) :
    fetchQuestionsToQueue s t d c init key res = (s, []) ∧
    (fetchStartState s' init').prefetchingRef = true := by
  refine ⟨?_, rfl⟩
  simp [fetchQuestionsToQueue, h]

/-- A concrete state whose FetchGuard is set, for the C2 witness. -/
def guardedState : AppState := { baseState with prefetchingRef := true }

/-- Witness for C2 at concrete states. -/
theorem single_flight_guard_witness :
    fetchQuestionsToQueue guardedState "math" 50 5 false true (Except.ok []) =
      (guardedState, []) ∧
    (fetchStartState baseState true).prefetchingRef = true :=
  single_flight_guard guardedState baseState "math" 50 5 false true true
    (Except.ok []) rfl

set_option maxHeartbeats 1000000 in
/-- C3: for every level in [0,100], the update on a correct answer equals
`min(100, current + max(2, round(10 * (1 - current/110))))` and on an
incorrect answer equals `max(0, current - max(3, round(8 * current/100)))`
(rounding to nearest applied to the boost/penalty, clamping last); in
particular `nextLevel(50, true) = 55` and `nextLevel(55, false) = 51`. -/
theorem difficulty_update_formula (c : Int) (h1 : 0 ≤ c) (h2 : c ≤ 100) :
    calculateNewDifficulty c true =
      min 100 (c + max 2 (round ((10 : ℚ) * (1 - (c : ℚ) / 110)))) ∧
    calculateNewDifficulty c false =
      max 0 (c - max 3 (round ((8 : ℚ) * ((c : ℚ) / 100)))) ∧
    calculateNewDifficulty 50 true = 55 ∧
    calculateNewDifficulty 55 false = 51 := by
  have h50 : calculateNewDifficulty 50 true = 55 := by
    norm_num [calculateNewDifficulty, max_def, round_eq]
  have h55 : calculateNewDifficulty 55 false = 51 := by
    norm_num [calculateNewDifficulty, max_def, round_eq]
  refine ⟨?_, ?_, h50, h55⟩ <;> interval_cases c <;>
    norm_num [calculateNewDifficulty, max_def, round_eq]

/-- Witness for C3 at level 50. -/
theorem difficulty_update_formula_witness :
    calculateNewDifficulty 50 true = 55 ∧ calculateNewDifficulty 55 false = 51 :=
  ⟨(difficulty_update_formula 50 (by decide) (by decide)).2.2.1,
   (difficulty_update_formula 50 (by decide) (by decide)).2.2.2⟩

/-- C4: a recorded answer (feedback not yet shown, a current question
present) issues exactly one non-blocking batch request for 5 items at the
post-update difficulty when the queue length is at most 4 and the
FetchGuard is clear, and no request otherwise. -/
theorem refill_trigger_policy (s : AppState) (i now : Nat) (q : Question)
    (key : Bool) (res : Except Unit (List Question))
    (hf : s.feedbackShown = false) (hq : s.currentQuestion = some q) :
    (handleAnswer s i now key res).2 =
      if s.questionQueue.length ≤ 4 ∧ s.prefetchingRef = false then
        [{ topic := queryTopic s,
           level := calculateNewDifficulty s.difficulty (i == q.correctIndex),
           count := 5, blocking := false }]
      else [] := by
  by_cases hcond : s.questionQueue.length ≤ 4 ∧ s.prefetchingRef = false
  · cases hgen : generateAdaptiveQuestions key res with
    | ok qs =>
        simp [handleAnswer, hf, hq, hcond, hcond.2, fetchQuestionsToQueue,
          hgen, queryTopic]
    | error e =>
        simp [handleAnswer, hf, hq, hcond, hcond.2, fetchQuestionsToQueue,
          hgen, queryTopic]
  · simp [handleAnswer, hf, hq, hcond]

/-- A concrete answering state for the C4 witness. -/
def answerState : AppState :=
  { baseState with status := AppStatus.QUIZ,
                   currentQuestion := some sampleQuestion }

/-- Witness for C4 at a concrete state (empty queue, guard clear). -/
theorem refill_trigger_policy_witness :
    (handleAnswer answerState 0 0 true (Except.ok [])).2 =
      if answerState.questionQueue.length ≤ 4 ∧ answerState.prefetchingRef = false then
        [{ topic := queryTopic answerState,
           level := calculateNewDifficulty answerState.difficulty
                      ((0 : Nat) == sampleQuestion.correctIndex),
           count := 5, blocking := false }]
      else [] :=
  refill_trigger_policy answerState 0 0 sampleQuestion true (Except.ok []) rfl rfl

/-- C5 counterexample: a question-generation request made with the API key
missing fails, yet no fallback batch is produced — the error propagates to
the caller (thrown before the service's `try` block), the caller's catch
swallows it, and the consumer is left with no deliverable item: the current
question and queue are unchanged.  So not every failing request yields the
size-1 fallback batch. -/
theorem missing_key_yields_no_batch :
    generateAdaptiveQuestions false (Except.error ()) = Except.error () ∧
    generateAdaptiveQuestions false (Except.ok [sampleQuestion]) = Except.error () ∧
    (fetchQuestionsToQueue baseState "math" 50 5 true false
      (Except.error ())).1.currentQuestion = none ∧
    (fetchQuestionsToQueue baseState "math" 50 5 true false
      (Except.error ())).1.questionQueue = [] :=
  ⟨rfl, rfl, rfl, rfl⟩

/-- C5 amended: provided the API key is configured, every request whose
generation fails inside the service (model error, empty response, or JSON
parsing — the `GenerationError` cases) is replaced by the single fixed
fallback question, returned as a batch of size 1, so such a request always
yields a deliverable item; a request without a configured API key instead
throws before generation and yields no batch at all. -/
theorem fallback_on_generation_error (e : Unit) (qs : List Question) :
    generateAdaptiveQuestions true (Except.error e) = Except.ok [fallbackQuestion] ∧
    ([fallbackQuestion] : List Question).length = 1 ∧
    generateAdaptiveQuestions true (Except.ok qs) = Except.ok qs ∧
    generateAdaptiveQuestions false (Except.ok qs) = Except.error () :=
  ⟨rfl, rfl, rfl, rfl⟩

/-- C6 counterexample: in a plan-day quiz with zero answered questions, the
quit action ("放弃并返回计划", rendered whenever a plan day is active)
invokes `handleCompletePlanDay`, which marks day 1 completed although fewer
than 3 questions were answered — `completed` is reachable without the
3-answers gate. -/
theorem quit_completes_day_ungated :
    planQuizState.history.length = 0 ∧
    (quitQuizAction planQuizState).studyPlan.map (fun d => d.status) =
      [PlanStatus.completed, PlanStatus.currentDay] :=
  ⟨rfl, rfl⟩

/-- C6 amended: a start-request on a locked plan day is rejected as a
no-op, and the dedicated completion button of the quiz feedback panel is
only offered once at least 3 questions have been answered; however the
quit-quiz action also invokes the completion handler without that gate, so
the 3-answers gating holds for the dedicated button only, not for every
path that completes a day. -/
theorem locked_day_rejected_and_button_gated (s s' : AppState)
    (day : StudyPlanDay) (m : Except Unit String)
    (hl : day.status = PlanStatus.locked)
    (hv : completeDayButtonVisible s') :
    handleStartPlanDay s day m = s ∧ 3 ≤ s'.history.length :=
  ⟨by simp [handleStartPlanDay, hl], hv.2.2⟩

/-- A concrete state where the dedicated completion button is visible. -/
def gatedState : AppState :=
  { baseState with feedbackShown := true, activePlanDay := some 1,
                   history := [sampleHistoryItem, sampleHistoryItem,
                               sampleHistoryItem] }

/-- Witness for the amended C6 at concrete inputs. -/
theorem locked_day_rejected_and_button_gated_witness :
    handleStartPlanDay baseState lockedDay (Except.ok "m") = baseState ∧
    3 ≤ gatedState.history.length :=
  locked_day_rejected_and_button_gated baseState gatedState lockedDay
    (Except.ok "m") rfl ⟨rfl, rfl, by decide⟩

set_option maxHeartbeats 1000000 in
/-- C7: for every level L in [0,100] the updated level stays in [0,100] for
both outcomes; a correct answer strictly increases the level whenever
L < 100 and leaves it at 100 at the cap; an incorrect answer strictly
decreases it whenever L > 0 and leaves it at 0 at the floor. -/
theorem difficulty_bounded_monotone (L : Int) (h1 : 0 ≤ L) (h2 : L ≤ 100) :
    (0 ≤ calculateNewDifficulty L true ∧ calculateNewDifficulty L true ≤ 100) ∧
    (0 ≤ calculateNewDifficulty L false ∧ calculateNewDifficulty L false ≤ 100) ∧
    (L < 100 → L < calculateNewDifficulty L true) ∧
    calculateNewDifficulty 100 true = 100 ∧
    (0 < L → calculateNewDifficulty L false < L) ∧
    calculateNewDifficulty 0 false = 0 := by
  have hcap : calculateNewDifficulty 100 true = 100 := by
    norm_num [calculateNewDifficulty, max_def, round_eq]
  have hfloor : calculateNewDifficulty 0 false = 0 := by
    norm_num [calculateNewDifficulty, max_def, round_eq]
  refine ⟨?_, ?_, ?_, hcap, ?_, hfloor⟩ <;> interval_cases L <;>
    norm_num [calculateNewDifficulty, max_def, round_eq]

/-- Witness for C7 at level 50. -/
theorem difficulty_bounded_monotone_witness :
    (0 ≤ calculateNewDifficulty 50 true ∧ calculateNewDifficulty 50 true ≤ 100) ∧
    50 < calculateNewDifficulty 50 true := by
  have h := difficulty_bounded_monotone 50 (by decide) (by decide)
  exact ⟨h.1, h.2.2.1 (by decide)⟩

/-- C8: completing the active day k maps each plan entry as follows — the
entry numbered k keeps every field and gets status `completed`, the entry
numbered k+1 (when present) keeps every field and gets status `current`,
and every other entry is entirely unchanged; the plan keeps its length, so
when k is the last day no other entry changes. -/
theorem complete_day_frame (s : AppState) (k : Int) (i : Nat)
    (d : StudyPlanDay) (hs : s.activePlanDay = some k)
    (hd : s.studyPlan[i]? = some d) :
    (handleCompletePlanDay s).studyPlan.length = s.studyPlan.length ∧
    (handleCompletePlanDay s).studyPlan[i]? = some
      { d with status :=
          if d.day = k then PlanStatus.completed
          else if d.day = k + 1 then PlanStatus.currentDay
          else d.status } := by
  constructor
  · simp [handleCompletePlanDay, hs, completePlanUpdate]
  · have hmap :
        (handleCompletePlanDay s).studyPlan[i]? =
          Option.map (fun day =>
            if day.day = k then { day with status := PlanStatus.completed }
            else if day.day = k + 1 then { day with status := PlanStatus.currentDay }
            else day) s.studyPlan[i]? := by
      simp [handleCompletePlanDay, hs, completePlanUpdate]
    rw [hmap, hd, Option.map_some']
    split_ifs <;> rfl

/-- Witness for C8: completing day 1 of the sample plan. -/
theorem complete_day_frame_witness :
    (handleCompletePlanDay planQuizState).studyPlan.length =
      planQuizState.studyPlan.length ∧
    (handleCompletePlanDay planQuizState).studyPlan[0]? = some
      { planDay1 with status :=
          if planDay1.day = 1 then PlanStatus.completed
          else if planDay1.day = 1 + 1 then PlanStatus.currentDay
          else planDay1.status } :=
  complete_day_frame planQuizState 1 0 planDay1 rfl rfl

/-- C9: every fetch invocation that actually sets the FetchGuard (the guard
was clear when it started) has released the guard again once it returns
control, whatever the outcome of the generation call — so a failed fetch
cannot permanently wedge the single-flight mechanism. -/
theorem fetch_guard_released (s : AppState) (t : String) (d : Int) (c : Nat)
    (init key : Bool) (res : Except Unit (List Question))
    (h : s.prefetchingRef = false) :
    (fetchQuestionsToQueue s t d c init key res).1.prefetchingRef = false := by
  cases hgen : generateAdaptiveQuestions key res with
  | ok qs => simp [fetchQuestionsToQueue, h, hgen, fetchFinallyState]
  | error e => simp [fetchQuestionsToQueue, h, hgen, fetchFinallyState]

/-- Witness for C9 on a failing fetch from a concrete clear-guard state. -/
theorem fetch_guard_released_witness :
    (fetchQuestionsToQueue baseState "math" 50 5 true false
      (Except.error ())).1.prefetchingRef = false :=
  fetch_guard_released baseState "math" 50 5 true false (Except.error ()) rfl

/-- C10: a blocking (initial-load) fetch that proceeds and succeeds with a
non-empty batch makes the first element of the batch the current question
and leaves the queue holding exactly the remaining elements of that batch —
whatever the queue held before the fetch completed is discarded. -/
theorem initial_load_replaces_queue (s : AppState) (t : String) (d : Int)
    (c : Nat) (qs : List Question) (h : s.prefetchingRef = false)
    (hne : qs ≠ []) :
    (fetchQuestionsToQueue s t d c true true (Except.ok qs)).1.currentQuestion =
      qs.head? ∧
    (fetchQuestionsToQueue s t d c true true (Except.ok qs)).1.questionQueue =
      qs.tail := by
  have hlen : 0 < qs.length := List.length_pos.mpr hne
  constructor <;>
    simp [fetchQuestionsToQueue, h, generateAdaptiveQuestions, hlen,
      fetchStartState, fetchFinallyState]

/-- A concrete state whose queue already holds a stale question. -/
def staleQueueState : AppState :=
  { baseState with questionQueue := [sampleQuestion2] }

/-- Witness for C10: the stale queue entry is discarded in favour of the
tail of the freshly fetched batch. -/
theorem initial_load_replaces_queue_witness :
    (fetchQuestionsToQueue staleQueueState "math" 50 5 true true
      (Except.ok [sampleQuestion, sampleQuestion2])).1.currentQuestion =
      [sampleQuestion, sampleQuestion2].head? ∧
    (fetchQuestionsToQueue staleQueueState "math" 50 5 true true
      (Except.ok [sampleQuestion, sampleQuestion2])).1.questionQueue =
      [sampleQuestion, sampleQuestion2].tail :=
  initial_load_replaces_queue staleQueueState "math" 50 5
    [sampleQuestion, sampleQuestion2] rfl (by decide)

end SmartPath
